import Mathlib

/-!
Verification of the multiplayer client runtime emitted by the forge-cli
scaffolding tool.  The definitions below are a shallow embedding of the
generated GDScript modules: ShardInput (input buffering/sending),
ShardState (snapshot buffer and interpolation), ShardPrediction
(client-side prediction and reconciliation), ShardConnection (reconnect
backoff, close-code handling, latency ring), ShardMatch (round/match
lifecycle and score maps) and ShardLobby (lobby membership).

Conventions of the embedding:
* GDScript floats are modelled exactly as rationals; integer
  millisecond times embed into the rationals.
* GDScript Dictionaries with a known schema become records; message
  dictionaries whose fields may be absent use Option fields, with
  Option.getD playing the role of Dictionary.get with a default.
* Distances are represented by their squares (dist_sq), so that the
  strict comparison "distance > threshold" of the source becomes the
  equivalent "squared distance > threshold squared" over the rationals,
  and the divergence magnitude carried by the correction event is
  represented by its square.
* Signal emissions become explicit event lists / Option values returned
  next to the new state; outbound wire messages likewise.
-/

namespace Shard

/-- Two-dimensional vector over the rationals (Godot Vector2). -/
structure Vec2 where
  x : ℚ
  y : ℚ
deriving DecidableEq, Repr

/-- GDScript clamp(value, lo, hi). -/
def clampQ (v lo hi : ℚ) : ℚ := min (max v lo) hi

/-- GDScript lerp(a, b, t) = a + (b - a) * t. -/
def lerpQ (a b t : ℚ) : ℚ := a + (b - a) * t

/-- Squared Euclidean distance between two Vec2 values. -/
def dist_sq (a b : Vec2) : ℚ :=
  (a.x - b.x) * (a.x - b.x) + (a.y - b.y) * (a.y - b.y)

/-- The `while buffer.size() > cap: buffer.pop_front()` trimming loop shared
by the input buffer, the snapshot buffer and the latency ring. -/
def popFrontWhileOver {α : Type} (cap : ℕ) : List α → List α
  | [] => []
  | x :: xs =>
      if (x :: xs).length > cap then popFrontWhileOver cap xs else x :: xs

-- =========================================================================
-- ShardInput (godot3 and godot4 templates are semantically identical here)
-- =========================================================================

/-- INPUT_BUFFER_SIZE constant of ShardInput. -/
def INPUT_BUFFER_SIZE : ℕ := 60

/-- A raw input Dictionary passed by the caller to send_input; every field
may be absent (Dictionary.get supplies the default). -/
structure RawInput where
  move_x : Option ℚ
  move_y : Option ℚ
  jump : Option Bool
  pickup : Option Bool
  use_weapon : Option Bool
  drop_weapon : Option Bool
  aim_angle : Option ℚ
deriving DecidableEq, Repr

/-- The validated input record produced by ShardInput._validate_input:
two clamped axes, four coerced booleans and one angle. -/
structure InputFields where
  move_x : ℚ
  move_y : ℚ
  jump : Bool
  pickup : Bool
  use_weapon : Bool
  drop_weapon : Bool
  aim_angle : ℚ
deriving DecidableEq, Repr

/-- ShardInput._validate_input. -/
def validate_input (i : RawInput) : InputFields :=
  { move_x := clampQ (i.move_x.getD 0) (-1) 1
    move_y := clampQ (i.move_y.getD 0) (-1) 1
    jump := i.jump.getD false
    pickup := i.pickup.getD false
    use_weapon := i.use_weapon.getD false
    drop_weapon := i.drop_weapon.getD false
    aim_angle := i.aim_angle.getD 0 }

/-- One entry of the input buffer: a tick paired with a validated input. -/
structure InputRecord where
  tick : ℤ
  input : InputFields
deriving DecidableEq, Repr

/-- ShardInput._store_input: append the record, then pop from the front
while the buffer exceeds INPUT_BUFFER_SIZE. -/
def store_input (tick : ℤ) (inp : InputFields) (buf : List InputRecord) :
    List InputRecord :=
  popFrontWhileOver INPUT_BUFFER_SIZE (buf ++ [⟨tick, inp⟩])

/-- ShardInput.get_inputs_after_tick: all entries with tick strictly
greater than the given tick, in buffer order. -/
def get_inputs_after_tick (t : ℤ) : List InputRecord → List InputRecord
  | [] => []
  | e :: rest =>
      if t < e.tick then e :: get_inputs_after_tick t rest
      else get_inputs_after_tick t rest

/-- ShardInput.clear_inputs_before_tick: pop from the front while the head
has tick less than or equal to the given tick. -/
def clear_inputs_before_tick (t : ℤ) : List InputRecord → List InputRecord
  | [] => []
  | e :: rest =>
      if e.tick ≤ t then clear_inputs_before_tick t rest else e :: rest

/-- Mutable state of a ShardInput instance. -/
structure InputState where
  current_tick : ℤ
  input_buffer : List InputRecord
  inputs_sent : ℕ
deriving DecidableEq, Repr

/-- The player_input wire message produced by send_input (type and
timestamp fields omitted; tick and validated input retained). -/
structure SentInput where
  tick : ℤ
  input : InputFields
deriving DecidableEq, Repr

/-- ShardInput.send_input.  The two guards drop the call silently; an
accepted call increments the tick, validates, sends and stores.  The
returned Option is the message handed to connection.send_message. -/
def send_input (authenticated is_playing : Bool) (raw : RawInput)
    (s : InputState) : InputState × Option SentInput :=
  if is_playing = false then (s, none)
  else if authenticated = false then (s, none)
  else
    let tick := s.current_tick + 1
    let v := validate_input raw
    ({ current_tick := tick
       input_buffer := store_input tick v s.input_buffer
       inputs_sent := s.inputs_sent + 1 }, some ⟨tick, v⟩)

-- =========================================================================
-- ShardState (snapshot buffer and interpolation)
-- =========================================================================

/-- One player entry of a snapshot; the source reads these fields from the
player Dictionary (field "state" of the source is named status here to
avoid clashing with the connection-state field). -/
structure PlayerState where
  peer_id : ℤ
  x : ℚ
  y : ℚ
  vx : ℚ
  vy : ℚ
  health : ℤ
  weapon : Option ℤ
  weapon_cooldown : ℚ
  status : String
deriving DecidableEq, Repr

/-- A normalized snapshot as stored by handle_snapshot.  server_time is
the local receipt time (OS.get_ticks_msec at receipt).  Projectile and
pickup payloads are opaque to the client and modelled as integer lists.
last_processed_input is the peer-id-to-tick map (the source looks the
peer up both as a string key and as an int key; keys are modelled as
integers, which collapses that wire-format duality). -/
structure Snapshot where
  tick : ℤ
  timestamp : ℤ
  server_time : ℚ
  last_processed_input : List (ℤ × ℤ)
  players : List PlayerState
  projectiles : List ℤ
  pickups : List ℤ
deriving DecidableEq, Repr

/-- SNAPSHOT_BUFFER_SIZE constant of ShardState. -/
def SNAPSHOT_BUFFER_SIZE : ℕ := 3

/-- An inbound state_snapshot message; every field may be absent. -/
structure SnapshotMsg where
  tick : Option ℤ
  timestamp : Option ℤ
  last_processed_input : Option (List (ℤ × ℤ))
  players : Option (List PlayerState)
  projectiles : Option (List ℤ)
  pickups : Option (List ℤ)
deriving DecidableEq, Repr

/-- The snapshot Dictionary built at the top of handle_snapshot, tagging
the message with the local receipt time now. -/
def normalize_snapshot (msg : SnapshotMsg) (now : ℚ) : Snapshot :=
  { tick := msg.tick.getD 0
    timestamp := msg.timestamp.getD 0
    server_time := now
    last_processed_input := msg.last_processed_input.getD []
    players := msg.players.getD []
    projectiles := msg.projectiles.getD []
    pickups := msg.pickups.getD [] }

/-- ShardState.handle_snapshot: append the normalized snapshot and trim
the buffer to SNAPSHOT_BUFFER_SIZE from the front. -/
def handle_snapshot (msg : SnapshotMsg) (now : ℚ) (snaps : List Snapshot) :
    List Snapshot :=
  popFrontWhileOver SNAPSHOT_BUFFER_SIZE (snaps ++ [normalize_snapshot msg now])

/-- ShardState.get_latest_state: the newest snapshot, or none ({} in the
source) if the buffer is empty. -/
def get_latest_state (snaps : List Snapshot) : Option Snapshot :=
  snaps.getLast?

/-- ShardState._find_player_by_peer_id. -/
def find_player_by_peer_id (players : List PlayerState) (peer : ℤ) :
    Option PlayerState :=
  players.find? (fun p => p.peer_id == peer)

/-- ShardState.get_last_processed_tick: the latest snapshot's
last-processed-input entry for the peer, defaulting to 0. -/
def get_last_processed_tick (snaps : List Snapshot) (peer : ℤ) : ℤ :=
  match snaps.getLast? with
  | none => 0
  | some latest =>
      ((latest.last_processed_input.find? (fun kv => kv.1 == peer)).map
        (fun kv => kv.2)).getD 0

/-- The bracketing-pair search loop of get_interpolated_state: the first
adjacent pair whose receipt times enclose the target time. -/
def findBracketing (target : ℚ) : List Snapshot → Option (Snapshot × Snapshot)
  | a :: b :: rest =>
      if a.server_time ≤ target ∧ target ≤ b.server_time then some (a, b)
      else findBracketing target (b :: rest)
  | _ => none

/-- The per-player body of ShardState._interpolate_players: a player
matched in the older snapshot gets its position linearly blended, all
other fields copied from the newer entry; an unmatched player passes
through unmodified. -/
def interpolate_one (older_players : List PlayerState) (t : ℚ)
    (np : PlayerState) : PlayerState :=
  match find_player_by_peer_id older_players np.peer_id with
  | some op =>
      { peer_id := np.peer_id
        x := lerpQ op.x np.x t
        y := lerpQ op.y np.y t
        vx := np.vx
        vy := np.vy
        health := np.health
        weapon := np.weapon
        weapon_cooldown := np.weapon_cooldown
        status := np.status }
  | none => np

/-- ShardState._interpolate_players. -/
def interpolate_players (older newer : List PlayerState) (t : ℚ) :
    List PlayerState :=
  newer.map (interpolate_one older t)

/-- ShardState.get_interpolated_state.  The int() cast the source applies
to the blended server_time is dropped in the rational model (it only
rounds a millisecond bookkeeping value that no claim mentions). -/
def get_interpolated_state (snaps : List Snapshot) (delay render_time : ℚ) :
    Option Snapshot :=
  if snaps.length < 2 then get_latest_state snaps
  else
    let target := render_time - delay
    match findBracketing target snaps with
    | none => get_latest_state snaps
    | some (older, newer) =>
        let time_diff := newer.server_time - older.server_time
        let t0 : ℚ :=
          if time_diff > 0 then (target - older.server_time) / time_diff else 0
        let t := clampQ t0 0 1
        some
          { tick := newer.tick
            timestamp := newer.timestamp
            server_time := lerpQ older.server_time newer.server_time t
            last_processed_input := newer.last_processed_input
            players := interpolate_players older.players newer.players t
            projectiles := newer.projectiles
            pickups := newer.pickups }

-- =========================================================================
-- ShardPrediction (godot3 template, part of the prediction engine)
-- =========================================================================

/-- CORRECTION_THRESHOLD constant of ShardPrediction (5.0 units). -/
def CORRECTION_THRESHOLD : ℚ := 5

/-- GRAVITY constant of ShardPrediction. -/
def GRAVITY : ℚ := 980

/-- MOVE_SPEED constant of ShardPrediction. -/
def MOVE_SPEED : ℚ := 200

/-- JUMP_VELOCITY constant of ShardPrediction. -/
def JUMP_VELOCITY : ℚ := -400

/-- The fixed nominal timestep used by apply_input_without_delta. -/
def NOMINAL_DT : ℚ := 1 / 60

/-- Mutable state of a ShardPrediction instance. -/
structure PredictionState where
  enabled : Bool
  predicted_position : Vec2
  predicted_velocity : Vec2
  my_peer_id : ℤ
  is_grounded : Bool
  prediction_corrections : ℕ
deriving DecidableEq, Repr

/-- ShardPrediction.apply_input: horizontal speed from the axis, jump
impulse if grounded, gravity accumulation, Euler integration and ground
clamping (screen-down coordinates: the ground plane is y = 0 and y grows
downward, so descending means vy at least 0). -/
def apply_input (input : InputFields) (delta : ℚ) (s : PredictionState) :
    PredictionState :=
  if s.enabled = false then s
  else
    let vx := input.move_x * MOVE_SPEED
    let vyAfterJump :=
      if input.jump && s.is_grounded then JUMP_VELOCITY
      else s.predicted_velocity.y
    let grounded1 :=
      if input.jump && s.is_grounded then false else s.is_grounded
    let vy := vyAfterJump + GRAVITY * delta
    let px := s.predicted_position.x + vx * delta
    let py := s.predicted_position.y + vy * delta
    if py ≥ 0 ∧ vy ≥ 0 then
      { s with
        predicted_position := ⟨px, 0⟩
        predicted_velocity := ⟨vx, 0⟩
        is_grounded := true }
    else
      { s with
        predicted_position := ⟨px, py⟩
        predicted_velocity := ⟨vx, vy⟩
        is_grounded := grounded1 }

/-- ShardPrediction.apply_input_without_delta: the integrator at the
fixed nominal timestep of one sixtieth of a second. -/
def apply_input_without_delta (input : InputFields) (s : PredictionState) :
    PredictionState :=
  apply_input input NOMINAL_DT s

/-- The corrected prediction state described by claim C1: snap to the
server-reported position/velocity/grounded status, then replay through
the fixed-step integrator, in buffer order, exactly the buffered inputs
with tick strictly greater than the last-processed tick lp, and count
one more correction. -/
def claim_corrected_state (sp : PlayerState) (lp : ℤ) (buf : List InputRecord)
    (s : PredictionState) : PredictionState :=
  let snapped : PredictionState :=
    { s with
      predicted_position := ⟨sp.x, sp.y⟩
      predicted_velocity := ⟨sp.vx, sp.vy⟩
      is_grounded := decide (sp.vy ≥ 0 ∧ sp.y ≥ 0) }
  let replayed :=
    (buf.filter (fun e => decide (lp < e.tick))).foldl
      (fun st e => apply_input_without_delta e.input st) snapped
  { replayed with
    prediction_corrections := replayed.prediction_corrections + 1 }

/-- Payload of the prediction_corrected signal.  divergence_sq is the
square of the divergence magnitude the source emits (the magnitude
itself is the square root, which the rational model keeps squared). -/
structure CorrectionEvent where
  server_pos : Vec2
  predicted_pos : Vec2
  divergence_sq : ℚ
deriving DecidableEq, Repr

/-- ShardPrediction.reconcile.  Returns the new prediction state, the new
input buffer (after clear_inputs_before_tick) and the emitted correction
event, if any.  The source guard "distance > CORRECTION_THRESHOLD" is
modelled as the equivalent squared comparison. -/
def reconcile (snaps : List Snapshot) (buf : List InputRecord)
    (s : PredictionState) :
    PredictionState × List InputRecord × Option CorrectionEvent :=
  if s.enabled = false ∨ s.my_peer_id < 0 then (s, buf, none)
  else
    match get_latest_state snaps with
    | none => (s, buf, none)
    | some latest =>
        match find_player_by_peer_id latest.players s.my_peer_id with
        | none => (s, buf, none)
        | some sp =>
            let server_pos : Vec2 := ⟨sp.x, sp.y⟩
            let last_processed := get_last_processed_tick snaps s.my_peer_id
            if dist_sq s.predicted_position server_pos >
                CORRECTION_THRESHOLD * CORRECTION_THRESHOLD then
              let old_predicted := s.predicted_position
              let snapped : PredictionState :=
                { s with
                  predicted_position := server_pos
                  predicted_velocity := ⟨sp.vx, sp.vy⟩
                  is_grounded := decide (sp.vy ≥ 0 ∧ sp.y ≥ 0) }
              let unprocessed := get_inputs_after_tick last_processed buf
              let replayed :=
                unprocessed.foldl
                  (fun st e => apply_input_without_delta e.input st) snapped
              ({ replayed with
                  prediction_corrections := replayed.prediction_corrections + 1 },
               clear_inputs_before_tick last_processed buf,
               some ⟨server_pos, old_predicted,
                     dist_sq old_predicted server_pos⟩)
            else
              (s, clear_inputs_before_tick last_processed buf, none)

-- =========================================================================
-- ShardConnection (godot4 template)
-- =========================================================================

/-- Connection states of ShardConnection. -/
inductive ConnStateEnum where
  | disconnected
  | connecting
  | connected
  | authenticated
deriving DecidableEq, Repr

/-- Signals of ShardConnection relevant to the claims. -/
inductive ConnEvent where
  | authentication_failed
  | rate_limited
  | error_received
  | connection_lost
  | disconnected_sig
  | reconnection_failed
deriving DecidableEq, Repr

/-- CLOSE_INVALID_SESSION close code. -/
def CLOSE_INVALID_SESSION : ℤ := 4001

/-- CLOSE_RATE_LIMITED close code. -/
def CLOSE_RATE_LIMITED : ℤ := 4008

/-- CLOSE_MESSAGE_TOO_LARGE close code. -/
def CLOSE_MESSAGE_TOO_LARGE : ℤ := 4009

/-- MATCH_RECONNECT_TIMEOUT constant (seconds). -/
def MATCH_RECONNECT_TIMEOUT : ℚ := 60

/-- LATENCY_BUFFER_SIZE constant. -/
def LATENCY_BUFFER_SIZE : ℕ := 5

/-- Default of the max_reconnect_attempts setting. -/
def DEFAULT_MAX_RECONNECT_ATTEMPTS : ℕ := 5

/-- Mutable state of a ShardConnection instance (fields the claims need). -/
structure ConnState where
  state : ConnStateEnum
  token : String
  user_id : String
  username : String
  auto_reconnect : Bool
  reconnect_delay : ℚ
  max_reconnect_attempts : ℕ
  reconnect_attempts : ℕ
  reconnect_timer : ℚ
  is_reconnecting : Bool
  was_authenticated : Bool
  match_reconnect_timer : ℚ
  in_match : Bool
  latency_buffer : List ℤ
  current_latency : ℤ
deriving DecidableEq, Repr

/-- ShardConnection._schedule_reconnect: exponential backoff capped at
30 seconds, written into the reconnect timer. -/
def schedule_reconnect (c : ConnState) : ConnState :=
  { c with
    reconnect_timer :=
      min (c.reconnect_delay * 2 ^ c.reconnect_attempts) 30 }

/-- ShardConnection._start_reconnection. -/
def start_reconnection (c : ConnState) : ConnState × List ConnEvent :=
  if c.token.isEmpty then (c, [ConnEvent.reconnection_failed])
  else
    (schedule_reconnect
      { c with
        is_reconnecting := true
        reconnect_attempts := 0
        match_reconnect_timer := 0 }, [])

/-- ShardConnection._attempt_reconnect.  The WebSocket connect_to_url
outcome is abstracted as the connect_ok flag (OK versus an immediate
initiation error). -/
def attempt_reconnect (c : ConnState) (connect_ok : Bool) :
    ConnState × List ConnEvent :=
  if c.is_reconnecting = false then (c, [])
  else
    let c1 := { c with reconnect_attempts := c.reconnect_attempts + 1 }
    if c1.reconnect_attempts > c1.max_reconnect_attempts then
      ({ c1 with is_reconnecting := false }, [ConnEvent.reconnection_failed])
    else if c1.in_match ∧ c1.match_reconnect_timer ≥ MATCH_RECONNECT_TIMEOUT then
      ({ c1 with is_reconnecting := false, in_match := false },
       [ConnEvent.reconnection_failed])
    else if connect_ok then
      ({ c1 with state := ConnStateEnum.connecting }, [])
    else
      (schedule_reconnect { c1 with state := ConnStateEnum.disconnected }, [])

/-- ShardConnection._on_disconnected, dispatching on the close code. -/
def on_disconnected (close_code : ℤ) (c : ConnState) :
    ConnState × List ConnEvent :=
  let previous_state := c.state
  let c1 := { c with state := ConnStateEnum.disconnected }
  if close_code = CLOSE_INVALID_SESSION then
    ({ c1 with user_id := "", username := "" },
     [ConnEvent.authentication_failed])
  else if close_code = CLOSE_RATE_LIMITED then
    (c1, [ConnEvent.rate_limited])
  else
    let sizeEvents :=
      if close_code = CLOSE_MESSAGE_TOO_LARGE then [ConnEvent.error_received]
      else []
    if previous_state = ConnStateEnum.authenticated ∧ c1.auto_reconnect then
      let c2 := { c1 with was_authenticated := true }
      let started := start_reconnection c2
      (started.1, sizeEvents ++ [ConnEvent.connection_lost] ++ started.2)
    else
      (c1, sizeEvents ++ [ConnEvent.disconnected_sig])

/-- ShardConnection.get_average_latency: 0 on an empty ring, otherwise
the integer division of the sample sum by the sample count (GDScript
int-by-int division truncates toward zero). -/
def get_average_latency (buf : List ℤ) : ℤ :=
  if buf.isEmpty then 0 else Int.tdiv buf.sum (buf.length : ℤ)

/-- The latency-ring update of ShardConnection._handle_pong: append the
round-trip time and trim the ring to LATENCY_BUFFER_SIZE. -/
def handle_pong (rtt : ℤ) (buf : List ℤ) : List ℤ :=
  popFrontWhileOver LATENCY_BUFFER_SIZE (buf ++ [rtt])

-- =========================================================================
-- ShardMatch (godot3 template)
-- =========================================================================

/-- Match states of ShardMatch. -/
inductive MState where
  | lobby
  | countdown
  | playing
  | round_over
  | match_over
deriving DecidableEq, Repr

/-- One element of an inbound scores array; peer_id and rounds_won may be
absent (an element that is not a Dictionary is modelled as one with no
peer_id, which the parser skips identically). -/
structure ScoreEntry where
  peer_id : Option ℤ
  rounds_won : Option ℤ
deriving DecidableEq, Repr

/-- Mutable state of a ShardMatch instance. -/
structure MatchState where
  state : MState
  current_round : ℤ
  scores : List (ℤ × ℤ)
  spawn_positions : List ℤ
  weapon_spawns : List ℤ
  final_winner_peer_id : ℤ
  final_winner_username : String
  final_scores : List ScoreEntry
deriving DecidableEq, Repr

/-- GDScript Dictionary assignment scores[k] = v on an insertion-ordered
map: update the existing entry in place, or append a new one. -/
def dictInsert (m : List (ℤ × ℤ)) (k v : ℤ) : List (ℤ × ℤ) :=
  if m.any (fun kv => kv.1 == k) then
    m.map (fun kv => if kv.1 == k then (k, v) else kv)
  else m ++ [(k, v)]

/-- Lookup in the insertion-ordered score map. -/
def scores_get (m : List (ℤ × ℤ)) (p : ℤ) : Option ℤ :=
  (m.find? (fun kv => kv.1 == p)).map (fun kv => kv.2)

/-- ShardMatch._parse_scores: merge each well-formed entry into the score
map by peer id (entries without a peer_id are skipped; rounds_won
defaults to 0). -/
def parse_scores (m : List (ℤ × ℤ)) (arr : List ScoreEntry) : List (ℤ × ℤ) :=
  arr.foldl
    (fun acc e =>
      match e.peer_id with
      | none => acc
      | some p => dictInsert acc p (e.rounds_won.getD 0)) m

/-- ShardMatch._parse_final_scores: clear the map, then parse. -/
def parse_final_scores (arr : List ScoreEntry) : List (ℤ × ℤ) :=
  parse_scores [] arr

/-- An inbound countdown message. -/
structure CountdownMsg where
  seconds : Option ℤ
deriving DecidableEq, Repr

/-- An inbound round_start message. -/
structure RoundStartMsg where
  round : Option ℤ
  spawn_positions : Option (List ℤ)
  weapon_spawns : Option (List ℤ)
deriving DecidableEq, Repr

/-- An inbound round_over message. -/
structure RoundOverMsg where
  winner_peer_id : Option ℤ
  scores : Option (List ScoreEntry)
deriving DecidableEq, Repr

/-- An inbound match_over message. -/
structure MatchOverMsg where
  winner_peer_id : Option ℤ
  winner_username : Option String
  final_scores : Option (List ScoreEntry)
deriving DecidableEq, Repr

/-- ShardMatch._handle_countdown: a message without seconds is logged and
dropped before any mutation. -/
def handle_countdown (msg : CountdownMsg) (m : MatchState) : MatchState :=
  match msg.seconds with
  | none => m
  | some _ => { m with state := MState.countdown }

/-- ShardMatch._handle_round_start: a message without round is logged and
dropped before any mutation; otherwise the round, state and spawn lists
are set (absent spawn arrays become empty lists). -/
def handle_round_start (msg : RoundStartMsg) (m : MatchState) : MatchState :=
  match msg.round with
  | none => m
  | some r =>
      { m with
        current_round := r
        state := MState.playing
        spawn_positions := msg.spawn_positions.getD []
        weapon_spawns := msg.weapon_spawns.getD [] }

/-- ShardMatch._handle_round_over: unconditionally enters ROUND_OVER and
merges the scores payload into the score map when present. -/
def handle_round_over (msg : RoundOverMsg) (m : MatchState) : MatchState :=
  let m1 := { m with state := MState.round_over }
  match msg.scores with
  | none => m1
  | some arr => { m1 with scores := parse_scores m1.scores arr }

/-- ShardMatch._handle_match_over: unconditionally enters MATCH_OVER,
resets the final winner fields to the payload values or their defaults,
and fully replaces the score map when a final_scores array is present. -/
def handle_match_over (msg : MatchOverMsg) (m : MatchState) : MatchState :=
  let base :=
    { m with
      state := MState.match_over
      final_winner_peer_id := msg.winner_peer_id.getD (-1)
      final_winner_username := Option.getD msg.winner_username "" }
  match msg.final_scores with
  | none => { base with final_scores := [] }
  | some arr =>
      { base with final_scores := arr, scores := parse_final_scores arr }

/-- ShardMatch.reset. -/
def match_reset (_m : MatchState) : MatchState :=
  { state := MState.lobby
    current_round := 0
    scores := []
    spawn_positions := []
    weapon_spawns := []
    final_winner_peer_id := -1
    final_winner_username := ""
    final_scores := [] }

/-- ShardMatch.return_to_lobby: back to LOBBY, round and spawn data
cleared, scores and final winner fields preserved. -/
def return_to_lobby (m : MatchState) : MatchState :=
  { m with
    state := MState.lobby
    current_round := 0
    spawn_positions := []
    weapon_spawns := [] }

-- =========================================================================
-- ShardLobby (godot3 template)
-- =========================================================================

/-- One roster entry of the lobby player map. -/
structure PlayerEntry where
  username : String
  is_host : Bool
deriving DecidableEq, Repr

/-- Mutable state of a ShardLobby instance. -/
structure LobbyState where
  lobby_code : String
  players : List (ℤ × PlayerEntry)
  my_peer_id : ℤ
  host_peer_id : ℤ
deriving DecidableEq, Repr

/-- Signals of ShardLobby relevant to claim C10. -/
inductive LobbyEvent where
  | lobby_left
deriving DecidableEq, Repr

/-- Outbound lobby wire messages relevant to claim C10. -/
inductive LobbyOut where
  | leave_lobby_request
deriving DecidableEq, Repr

/-- ShardLobby._clear_state: empty code, empty roster, host reset (the
self peer id is deliberately not touched). -/
def clear_state (l : LobbyState) : LobbyState :=
  { l with lobby_code := "", players := [], host_peer_id := -1 }

/-- ShardLobby.leave_lobby: a no-op unless authenticated and in a lobby;
otherwise the leave request is sent, local state is cleared at call time
and lobby_left fires, without waiting for any acknowledgment. -/
def leave_lobby (authenticated : Bool) (l : LobbyState) :
    LobbyState × List LobbyEvent × Option LobbyOut :=
  if authenticated = false then (l, [], none)
  else if l.lobby_code.isEmpty = true then (l, [], none)
  else (clear_state l, [LobbyEvent.lobby_left], some LobbyOut.leave_lobby_request)

-- =========================================================================
-- Whole-run folds and concrete demonstration values
-- =========================================================================

/-- A whole run of the input buffer: every accepted input stored in
order, starting from the empty buffer of a fresh ShardInput. -/
def run_store (es : List (ℤ × InputFields)) : List InputRecord :=
  es.foldl (fun b e => store_input e.1 e.2 b) []

/-- A whole run of the snapshot buffer: every inbound snapshot message
(paired with its local receipt time) handled in order, starting from the
empty buffer of a fresh ShardState. -/
def run_snapshots (ops : List (SnapshotMsg × ℚ)) : List Snapshot :=
  ops.foldl (fun b op => handle_snapshot op.1 op.2 b) []

/-- A simple validated input moving horizontally with the given axis. -/
def demoInput (mx : ℚ) : InputFields :=
  { move_x := mx
    move_y := 0
    jump := false
    pickup := false
    use_weapon := false
    drop_weapon := false
    aim_angle := 0 }

/-- Input buffer holding ticks 10 through 15 (the reconciliation
scenario of the specification). -/
def demoBuf : List InputRecord :=
  [⟨10, demoInput 0⟩, ⟨11, demoInput 0⟩, ⟨12, demoInput 0⟩,
   ⟨13, demoInput 1⟩, ⟨14, demoInput 1⟩, ⟨15, demoInput 1⟩]

/-- Server-reported self player far from the locally predicted position. -/
def demoPlayer : PlayerState :=
  { peer_id := 1
    x := 100
    y := 0
    vx := 0
    vy := 0
    health := 100
    weapon := none
    weapon_cooldown := 0
    status := "alive" }

/-- Latest snapshot reporting last processed tick 12 for peer 1. -/
def demoLatest : Snapshot :=
  { tick := 5
    timestamp := 0
    server_time := 0
    last_processed_input := [(1, 12)]
    players := [demoPlayer]
    projectiles := []
    pickups := [] }

/-- Snapshot buffer containing only demoLatest. -/
def demoSnaps : List Snapshot := [demoLatest]

/-- Prediction state at the origin for peer 1 (divergence 100, above the
correction threshold of 5). -/
def demoPred : PredictionState :=
  { enabled := true
    predicted_position := ⟨0, 0⟩
    predicted_velocity := ⟨0, 0⟩
    my_peer_id := 1
    is_grounded := true
    prediction_corrections := 0 }

/-- Older snapshot player for the interpolation scenario. -/
def demoOldPlayer : PlayerState :=
  { peer_id := 1
    x := 0
    y := 0
    vx := 1
    vy := 1
    health := 100
    weapon := none
    weapon_cooldown := 0
    status := "alive" }

/-- Newer snapshot player matched with demoOldPlayer. -/
def demoNewPlayer : PlayerState :=
  { peer_id := 1
    x := 10
    y := 4
    vx := 2
    vy := 2
    health := 90
    weapon := some 1
    weapon_cooldown := 3
    status := "alive" }

/-- Player present only in the newer snapshot. -/
def demoNewOnly : PlayerState :=
  { peer_id := 2
    x := 5
    y := 5
    vx := 0
    vy := 0
    health := 100
    weapon := none
    weapon_cooldown := 0
    status := "alive" }

/-- Older snapshot received at time 0. -/
def demoSnapA : Snapshot :=
  { tick := 1
    timestamp := 0
    server_time := 0
    last_processed_input := []
    players := [demoOldPlayer]
    projectiles := []
    pickups := [] }

/-- Newer snapshot received at time 10. -/
def demoSnapB : Snapshot :=
  { tick := 2
    timestamp := 0
    server_time := 10
    last_processed_input := []
    players := [demoNewPlayer, demoNewOnly]
    projectiles := []
    pickups := [3] }

/-- Two-snapshot buffer bracketing target time 5. -/
def demoSnaps2 : List Snapshot := [demoSnapA, demoSnapB]

/-- The expected interpolation of demoOldPlayer and demoNewPlayer at
parameter one half: position blended, everything else from the newer. -/
def demoBlended : PlayerState :=
  { peer_id := 1
    x := 5
    y := 2
    vx := 2
    vy := 2
    health := 90
    weapon := some 1
    weapon_cooldown := 3
    status := "alive" }

/-- A reconnecting connection at the attempt limit (5 attempts already
made, base delay 2 seconds). -/
def demoConn : ConnState :=
  { state := ConnStateEnum.disconnected
    token := "tok"
    user_id := ""
    username := ""
    auto_reconnect := true
    reconnect_delay := 2
    max_reconnect_attempts := 5
    reconnect_attempts := 5
    reconnect_timer := 0
    is_reconnecting := true
    was_authenticated := true
    match_reconnect_timer := 0
    in_match := false
    latency_buffer := []
    current_latency := 0 }

/-- A raw input setting only the four boolean fields. -/
def rawBool (a b c d : Bool) : RawInput :=
  { move_x := none
    move_y := none
    jump := some a
    pickup := some b
    use_weapon := some c
    drop_weapon := some d
    aim_angle := none }

/-- The two booleans. -/
def allBools : List Bool := [false, true]

/-- All sixteen raw inputs that vary exactly the four boolean fields. -/
def raw16 : List RawInput :=
  allBools.flatMap fun a =>
    allBools.flatMap fun b =>
      allBools.flatMap fun c =>
        allBools.map fun d => rawBool a b c d

/-- A raw input with an out-of-range axis and one boolean set. -/
def demoRaw : RawInput :=
  { move_x := some 5
    move_y := none
    jump := some true
    pickup := none
    use_weapon := none
    drop_weapon := none
    aim_angle := none }

/-- The expected validation of demoRaw: the axis clamps to 1, missing
fields take their defaults. -/
def demoValidated : InputFields :=
  { move_x := 1
    move_y := 0
    jump := true
    pickup := false
    use_weapon := false
    drop_weapon := false
    aim_angle := 0 }

/-- A fresh ShardInput state. -/
def demoInputState : InputState :=
  { current_tick := 0
    input_buffer := []
    inputs_sent := 0 }

/-- A match in PLAYING state with one score entry and a recorded final
winner, used to exhibit the unguarded match_over handler. -/
def demoMatch : MatchState :=
  { state := MState.playing
    current_round := 2
    scores := [(1, 1)]
    spawn_positions := [7]
    weapon_spawns := []
    final_winner_peer_id := 3
    final_winner_username := "alice"
    final_scores := [] }

/-- A one-entry scores payload for peer 2 with 3 rounds won. -/
def demoScoresArr : List ScoreEntry := [⟨some 2, some 3⟩]

/-- A lobby the local player (peer 1, host) currently occupies. -/
def demoLobby : LobbyState :=
  { lobby_code := "AB12"
    players := [(1, ⟨"alice", true⟩)]
    my_peer_id := 1
    host_peer_id := 1 }

end Shard

-- =========================================================================
-- Theorems
-- =========================================================================

namespace Shard

theorem popFrontWhileOver_eq_drop {α : Type} (cap : ℕ) (l : List α) :
    popFrontWhileOver cap l = l.drop (l.length - cap) := by
  induction l with
  | nil => simp [popFrontWhileOver]
  | cons x xs ih =>
      by_cases h : (x :: xs).length > cap
      · rw [popFrontWhileOver, if_pos h, ih]
        have hc : (x :: xs).length - cap = (xs.length - cap) + 1 := by
          simp only [List.length_cons] at h ⊢
          omega
        rw [hc, List.drop_succ_cons]
      · rw [popFrontWhileOver, if_neg h]
        have hz : (x :: xs).length - cap = 0 := by
          simp only [List.length_cons, gt_iff_lt, not_lt] at h ⊢
          omega
        rw [hz, List.drop_zero]

theorem length_popFrontWhileOver_le {α : Type} (cap : ℕ) (l : List α) :
    (popFrontWhileOver cap l).length ≤ cap := by
  rw [popFrontWhileOver_eq_drop, List.length_drop]
  omega

theorem foldl_store_eq (es : List (ℤ × InputFields)) (init : List InputRecord)
    (h : init.length ≤ INPUT_BUFFER_SIZE) :
    es.foldl (fun b e => store_input e.1 e.2 b) init =
      (init ++ es.map (fun e => InputRecord.mk e.1 e.2)).drop
        ((init.length + es.length) - INPUT_BUFFER_SIZE) := by
  induction es generalizing init with
  | nil =>
      simp only [List.foldl_nil, List.map_nil, List.append_nil, List.length_nil]
      rw [Nat.add_zero, Nat.sub_eq_zero_of_le h, List.drop_zero]
  | cons e es ih =>
      have hlen : (store_input e.1 e.2 init).length ≤ INPUT_BUFFER_SIZE :=
        length_popFrontWhileOver_le _ _
      rw [List.foldl_cons, ih _ hlen]
      rw [store_input, popFrontWhileOver_eq_drop]
      have hk : (init ++ [InputRecord.mk e.1 e.2]).length - INPUT_BUFFER_SIZE ≤
          (init ++ [InputRecord.mk e.1 e.2]).length := by omega
      rw [← List.drop_append_of_le_length hk, List.drop_drop, List.length_drop]
      have harith :
          (init ++ [InputRecord.mk e.1 e.2]).length - INPUT_BUFFER_SIZE +
            ((init ++ [InputRecord.mk e.1 e.2]).length -
              ((init ++ [InputRecord.mk e.1 e.2]).length - INPUT_BUFFER_SIZE) +
              es.length -
              INPUT_BUFFER_SIZE) =
          init.length + (e :: es).length - INPUT_BUFFER_SIZE := by
        simp only [List.length_append, List.length_cons, List.length_nil]
        omega
      rw [harith]
      have hassoc : init ++ [InputRecord.mk e.1 e.2] ++
            es.map (fun e => InputRecord.mk e.1 e.2) =
          init ++ (e :: es).map (fun e => InputRecord.mk e.1 e.2) := by
        simp
      rw [hassoc]

theorem handle_snapshot_getLast (msg : SnapshotMsg) (now : ℚ)
    (snaps : List Snapshot) :
    (handle_snapshot msg now snaps).getLast? = some (normalize_snapshot msg now) := by
  simp only [handle_snapshot]
  rw [popFrontWhileOver_eq_drop]
  have hk : (snaps ++ [normalize_snapshot msg now]).length - SNAPSHOT_BUFFER_SIZE ≤
      snaps.length := by
    simp only [List.length_append, List.length_cons, List.length_nil,
      SNAPSHOT_BUFFER_SIZE]
    omega
  rw [List.drop_append_of_le_length hk]
  exact List.getLast?_concat _

theorem foldl_handle_snapshot_le (ops : List (SnapshotMsg × ℚ))
    (init : List Snapshot) (h : init.length ≤ SNAPSHOT_BUFFER_SIZE) :
    (ops.foldl (fun b op => handle_snapshot op.1 op.2 b) init).length ≤
      SNAPSHOT_BUFFER_SIZE := by
  induction ops generalizing init with
  | nil => exact h
  | cons op ops ih =>
      rw [List.foldl_cons]
      exact ih _ (length_popFrontWhileOver_le _ _)

/-- Claim C5: the snapshot buffer never exceeds 3 entries and its last
element is always the most recently appended snapshot; the input buffer
never exceeds 60 entries and evicts oldest-first, so after any sequence
of accepted inputs it holds exactly the trailing (at most 60) records in
insertion order.  The retrieval and eviction queries of the buffers are
pure in this model, so holding the bound "regardless of query activity"
is immediate. -/
theorem buffer_capacity_fifo (ops : List (SnapshotMsg × ℚ))
    (op : SnapshotMsg × ℚ) (es : List (ℤ × InputFields)) :
    (run_snapshots ops).length ≤ SNAPSHOT_BUFFER_SIZE ∧
    (run_snapshots (ops ++ [op])).getLast? =
      some (normalize_snapshot op.1 op.2) ∧
    run_store es =
      (es.map (fun e => InputRecord.mk e.1 e.2)).drop
        (es.length - INPUT_BUFFER_SIZE) ∧
    (run_store es).length ≤ INPUT_BUFFER_SIZE := by
  refine ⟨?_, ?_, ?_, ?_⟩
  · exact foldl_handle_snapshot_le ops [] (by simp [SNAPSHOT_BUFFER_SIZE])
  · rw [run_snapshots, List.foldl_append, List.foldl_cons, List.foldl_nil]
    exact handle_snapshot_getLast _ _ _
  · have h := foldl_store_eq es [] (by simp [INPUT_BUFFER_SIZE])
    simpa [run_store] using h
  · have h := foldl_store_eq es [] (by simp [INPUT_BUFFER_SIZE])
    rw [run_store] at *
    rw [h, List.length_drop]
    simp only [List.nil_append, List.length_map]
    omega


theorem get_inputs_after_tick_eq_filter (t : ℤ) (buf : List InputRecord) :
    get_inputs_after_tick t buf = buf.filter (fun e => decide (t < e.tick)) := by
  induction buf with
  | nil => rfl
  | cons e rest ih =>
      by_cases h : t < e.tick
      · simp [get_inputs_after_tick, h, List.filter_cons, ih]
      · simp [get_inputs_after_tick, h, List.filter_cons, ih]

theorem clear_inputs_before_tick_eq_filter (t : ℤ) (buf : List InputRecord)
    (hs : buf.Pairwise (fun a b => a.tick < b.tick)) :
    clear_inputs_before_tick t buf = buf.filter (fun e => decide (t < e.tick)) := by
  induction buf with
  | nil => rfl
  | cons e rest ih =>
      rw [List.pairwise_cons] at hs
      by_cases h : e.tick ≤ t
      · rw [clear_inputs_before_tick, if_pos h, ih hs.2, List.filter_cons]
        have hd : decide (t < e.tick) = false := by
          simp only [decide_eq_false_iff_not, not_lt]
          exact h
        rw [hd]
        simp
      · rw [clear_inputs_before_tick, if_neg h, List.filter_cons]
        push_neg at h
        have hd : decide (t < e.tick) = true := by
          simp only [decide_eq_true_eq]
          exact h
        have hall : List.filter (fun e => decide (t < e.tick)) rest = rest := by
          rw [List.filter_eq_self]
          intro a ha
          simp only [decide_eq_true_eq]
          exact lt_trans h (hs.1 a ha)
        simp [hd, hall]

theorem apply_input_corrections (i : InputFields) (d : ℚ) (s : PredictionState) :
    (apply_input i d s).prediction_corrections = s.prediction_corrections := by
  simp only [apply_input]
  split_ifs <;> rfl

theorem foldl_replay_corrections (l : List InputRecord) (s : PredictionState) :
    (l.foldl (fun st e => apply_input_without_delta e.input st)
        s).prediction_corrections = s.prediction_corrections := by
  induction l generalizing s with
  | nil => rfl
  | cons e rest ih =>
      rw [List.foldl_cons, ih]
      simp only [apply_input_without_delta]
      exact apply_input_corrections _ _ _

/-- Claim C1: with prediction enabled, a self peer id set and the self
player present in the latest snapshot, reconcile evicts exactly the
buffered inputs with tick at most the server's last-processed tick
(leaving the strictly later ones, which for an in-order buffer is the
filter by tick greater than last-processed); and when the squared
divergence between predicted and server position exceeds the squared
correction threshold, the state snaps to the server position/velocity,
replays exactly the later inputs in buffer order through the fixed-step
integrator (claim_corrected_state), increments the correction counter by
exactly one and emits the correction event carrying the server position,
the pre-correction predicted position and the (squared) divergence;
below the threshold nothing changes and no event fires. -/
theorem reconcile_correction_replay_evict (snaps : List Snapshot)
    (buf : List InputRecord) (s : PredictionState) (latest : Snapshot)
    (sp : PlayerState)
    (hen : s.enabled = true) (hpeer : 0 ≤ s.my_peer_id)
    (hlatest : get_latest_state snaps = some latest)
    (hfind : find_player_by_peer_id latest.players s.my_peer_id = some sp)
    (hsorted : buf.Pairwise (fun a b => a.tick < b.tick)) :
    (reconcile snaps buf s).2.1 =
      buf.filter
        (fun e =>
          decide (get_last_processed_tick snaps s.my_peer_id < e.tick)) ∧
    (dist_sq s.predicted_position ⟨sp.x, sp.y⟩ >
        CORRECTION_THRESHOLD * CORRECTION_THRESHOLD →
      (reconcile snaps buf s).1 =
        claim_corrected_state sp
          (get_last_processed_tick snaps s.my_peer_id) buf s ∧
      (reconcile snaps buf s).1.prediction_corrections =
        s.prediction_corrections + 1 ∧
      (reconcile snaps buf s).2.2 =
        some ⟨⟨sp.x, sp.y⟩, s.predicted_position,
              dist_sq s.predicted_position ⟨sp.x, sp.y⟩⟩) ∧
    (¬ dist_sq s.predicted_position ⟨sp.x, sp.y⟩ >
        CORRECTION_THRESHOLD * CORRECTION_THRESHOLD →
      (reconcile snaps buf s).1 = s ∧ (reconcile snaps buf s).2.2 = none) := by
  have hlt : ¬ s.my_peer_id < 0 := by omega
  have hred : reconcile snaps buf s =
      (if dist_sq s.predicted_position ⟨sp.x, sp.y⟩ >
          CORRECTION_THRESHOLD * CORRECTION_THRESHOLD then
        (claim_corrected_state sp
            (get_last_processed_tick snaps s.my_peer_id) buf s,
         clear_inputs_before_tick
            (get_last_processed_tick snaps s.my_peer_id) buf,
         some ⟨⟨sp.x, sp.y⟩, s.predicted_position,
               dist_sq s.predicted_position ⟨sp.x, sp.y⟩⟩)
      else
        (s, clear_inputs_before_tick
              (get_last_processed_tick snaps s.my_peer_id) buf, none)) := by
    rw [reconcile, if_neg (by simp [hen, hlt])]
    rw [hlatest]
    simp only [hfind]
    rw [claim_corrected_state]
    simp only [get_inputs_after_tick_eq_filter]
  rw [hred]
  by_cases hd : dist_sq s.predicted_position ⟨sp.x, sp.y⟩ >
      CORRECTION_THRESHOLD * CORRECTION_THRESHOLD
  · rw [if_pos hd]
    refine ⟨clear_inputs_before_tick_eq_filter _ _ hsorted, fun _ => ⟨rfl, ?_, rfl⟩,
      fun hnd => absurd hd hnd⟩
    simp only [claim_corrected_state]
    rw [foldl_replay_corrections]
  · rw [if_neg hd]
    exact ⟨clear_inputs_before_tick_eq_filter _ _ hsorted,
      fun hdd => absurd hdd hd, fun _ => ⟨rfl, rfl⟩⟩

/-- Witness for claim C1: the specification scenario — the buffer holds
ticks 10 through 15, the server reports last-processed tick 12 for self,
the divergence is 100 (above the threshold): ticks 13, 14 and 15 are the
replayed and surviving inputs, the correction counter becomes 1 and the
correction event carries the expected payload. -/
theorem reconcile_correction_replay_evict_witness :
    (reconcile demoSnaps demoBuf demoPred).2.1 =
      demoBuf.filter
        (fun e =>
          decide (get_last_processed_tick demoSnaps demoPred.my_peer_id <
            e.tick)) ∧
    ((reconcile demoSnaps demoBuf demoPred).1 =
        claim_corrected_state demoPlayer
          (get_last_processed_tick demoSnaps demoPred.my_peer_id) demoBuf
          demoPred ∧
      (reconcile demoSnaps demoBuf demoPred).1.prediction_corrections =
        demoPred.prediction_corrections + 1 ∧
      (reconcile demoSnaps demoBuf demoPred).2.2 =
        some ⟨⟨demoPlayer.x, demoPlayer.y⟩, demoPred.predicted_position,
              dist_sq demoPred.predicted_position
                ⟨demoPlayer.x, demoPlayer.y⟩⟩) ∧
    (reconcile demoSnaps demoBuf demoPred).2.1 =
      [⟨13, demoInput 1⟩, ⟨14, demoInput 1⟩, ⟨15, demoInput 1⟩] := by
  have hd : dist_sq demoPred.predicted_position
      ⟨demoPlayer.x, demoPlayer.y⟩ >
      CORRECTION_THRESHOLD * CORRECTION_THRESHOLD := by
    norm_num [dist_sq, demoPred, demoPlayer, CORRECTION_THRESHOLD]
  have h := reconcile_correction_replay_evict demoSnaps demoBuf demoPred
    demoLatest demoPlayer rfl (by decide) rfl rfl (by decide)
  exact ⟨h.1, h.2.1 hd, h.1.trans (by decide)⟩


theorem findBracketing_sound (target : ℚ) (snaps : List Snapshot)
    (o n : Snapshot) (h : findBracketing target snaps = some (o, n)) :
    o.server_time ≤ target ∧ target ≤ n.server_time := by
  induction snaps with
  | nil => simp [findBracketing] at h
  | cons a tl ih =>
      cases tl with
      | nil => simp [findBracketing] at h
      | cons b rest =>
          by_cases hc : a.server_time ≤ target ∧ target ≤ b.server_time
          · rw [findBracketing, if_pos hc] at h
            simp only [Option.some.injEq, Prod.mk.injEq] at h
            obtain ⟨h1, h2⟩ := h
            subst h1
            subst h2
            exact hc
          · rw [findBracketing, if_neg hc] at h
            exact ih h

theorem interpolation_t_eq (o n target : ℚ) (h1 : o ≤ target)
    (h2 : target ≤ n) :
    clampQ (if n - o > 0 then (target - o) / (n - o) else 0) 0 1 =
      clampQ ((target - o) / (n - o)) 0 1 := by
  by_cases hd : n - o > 0
  · rw [if_pos hd]
  · rw [if_neg hd]
    have hz : n - o = 0 := by linarith
    rw [hz, div_zero]

/-- Claim C3: with at least two snapshots and a bracketing adjacent pair
for target = render_time - delay, the interpolated snapshot blends every
matched player's position with parameter
t = clamp((target - older.receipt)/(newer.receipt - older.receipt), 0, 1)
while velocity, health, weapon, cooldown and status come from the newer
snapshot exactly, and players present only in the newer snapshot pass
through unmodified; with fewer than two snapshots or no bracketing pair
the latest snapshot is returned unmodified (the function is total, so no
error can be raised). -/
theorem interpolation_blend_and_fallback (snaps : List Snapshot)
    (delay render_time : ℚ) :
    (∀ older newer, 2 ≤ snaps.length →
      findBracketing (render_time - delay) snaps = some (older, newer) →
      get_interpolated_state snaps delay render_time =
        some
          { tick := newer.tick
            timestamp := newer.timestamp
            server_time := lerpQ older.server_time newer.server_time
              (clampQ ((render_time - delay - older.server_time) /
                (newer.server_time - older.server_time)) 0 1)
            last_processed_input := newer.last_processed_input
            players := interpolate_players older.players newer.players
              (clampQ ((render_time - delay - older.server_time) /
                (newer.server_time - older.server_time)) 0 1)
            projectiles := newer.projectiles
            pickups := newer.pickups }) ∧
    (∀ (ol : List PlayerState) (t : ℚ) (np op : PlayerState),
      find_player_by_peer_id ol np.peer_id = some op →
      interpolate_one ol t np =
        { peer_id := np.peer_id
          x := lerpQ op.x np.x t
          y := lerpQ op.y np.y t
          vx := np.vx
          vy := np.vy
          health := np.health
          weapon := np.weapon
          weapon_cooldown := np.weapon_cooldown
          status := np.status }) ∧
    (∀ (ol : List PlayerState) (t : ℚ) (np : PlayerState),
      find_player_by_peer_id ol np.peer_id = none →
      interpolate_one ol t np = np) ∧
    (snaps.length < 2 →
      get_interpolated_state snaps delay render_time =
        get_latest_state snaps) ∧
    (findBracketing (render_time - delay) snaps = none →
      get_interpolated_state snaps delay render_time =
        get_latest_state snaps) := by
  refine ⟨?_, ?_, ?_, ?_, ?_⟩
  · intro older newer h2 hbr
    have hsound := findBracketing_sound _ _ _ _ hbr
    have ht := interpolation_t_eq older.server_time newer.server_time
      (render_time - delay) hsound.1 hsound.2
    rw [get_interpolated_state, if_neg (by omega : ¬ snaps.length < 2)]
    simp only [hbr, ht]
  · intro ol t np op h
    simp only [interpolate_one, h]
  · intro ol t np h
    simp only [interpolate_one, h]
  · intro h
    rw [get_interpolated_state, if_pos h]
  · intro h
    by_cases h2 : snaps.length < 2
    · rw [get_interpolated_state, if_pos h2]
    · rw [get_interpolated_state, if_neg h2]
      simp only [h]

/-- Witness for claim C3: snapshots received at times 0 and 10, delay 2,
render time 7, so the target 5 is bracketed with parameter one half; the
matched player's position is blended halfway, its remaining fields come
from the newer snapshot, and the newer-only player passes through. -/
theorem interpolation_blend_and_fallback_witness :
    get_interpolated_state demoSnaps2 2 7 =
      some
        { tick := 2
          timestamp := 0
          server_time := 5
          last_processed_input := []
          players := [demoBlended, demoNewOnly]
          projectiles := []
          pickups := [3] } := by
  have h := (interpolation_blend_and_fallback demoSnaps2 2 7).1 demoSnapA
    demoSnapB (by norm_num [demoSnaps2])
    (by norm_num [findBracketing, demoSnaps2, demoSnapA, demoSnapB])
  rw [h]
  norm_num [interpolate_players, interpolate_one, find_player_by_peer_id,
    demoSnapA, demoSnapB, demoOldPlayer, demoNewPlayer, demoNewOnly,
    demoBlended, lerpQ, clampQ]


/-- Claim C2: while reconnecting, the scheduled backoff delay for the
current attempt count n is min(base_delay * 2 ^ n, 30 s); once the
incremented attempt counter exceeds the configured maximum, reconnection
is abandoned (the reconnecting flag drops) and the terminal
reconnection_failed event is the only event fired, exactly once — any
further attempt call on the abandoned state is a no-op emitting
nothing. -/
theorem reconnect_backoff_and_terminal_failure (c : ConnState) (ok : Bool) :
    (schedule_reconnect c).reconnect_timer =
      min (c.reconnect_delay * 2 ^ c.reconnect_attempts) 30 ∧
    (c.is_reconnecting = true →
      c.reconnect_attempts + 1 > c.max_reconnect_attempts →
      attempt_reconnect c ok =
        ({ c with
            reconnect_attempts := c.reconnect_attempts + 1
            is_reconnecting := false },
         [ConnEvent.reconnection_failed])) ∧
    (c.is_reconnecting = false → attempt_reconnect c ok = (c, [])) := by
  refine ⟨rfl, ?_, ?_⟩
  · intro h1 h2
    rw [attempt_reconnect, if_neg (by simp [h1])]
    rw [if_pos h2]
  · intro h
    rw [attempt_reconnect, if_pos h]

/-- Witness for claim C2: with base delay 2 s and 5 attempts already
made, the scheduled delay is min(2 * 2^5, 30) = 30 s; the sixth attempt
exceeds the maximum of 5, abandons reconnection and fires the terminal
event once, and a further attempt on the abandoned state does nothing. -/
theorem reconnect_backoff_and_terminal_failure_witness :
    (schedule_reconnect demoConn).reconnect_timer = 30 ∧
    attempt_reconnect demoConn false =
      ({ demoConn with reconnect_attempts := 6, is_reconnecting := false },
       [ConnEvent.reconnection_failed]) ∧
    attempt_reconnect { demoConn with is_reconnecting := false } false =
      ({ demoConn with is_reconnecting := false }, []) := by
  have h := reconnect_backoff_and_terminal_failure demoConn false
  have habandoned := reconnect_backoff_and_terminal_failure
    { demoConn with is_reconnecting := false } false
  refine ⟨?_, ?_, habandoned.2.2 rfl⟩
  · rw [h.1]
    norm_num [demoConn, min_def]
  · exact h.2.1 rfl (by norm_num [demoConn])

/-- Claim C4: a closure carrying the invalid/expired-session close code
clears the user info, fires exactly the authentication-failure event,
and leaves the whole reconnection state (reconnecting flag, timer,
attempt counter) untouched — no reconnection is scheduled, regardless of
the prior state or the auto_reconnect setting. -/
theorem invalid_session_no_reconnect (c : ConnState) :
    on_disconnected CLOSE_INVALID_SESSION c =
      ({ c with
          state := ConnStateEnum.disconnected
          user_id := ""
          username := "" },
       [ConnEvent.authentication_failed]) ∧
    (on_disconnected CLOSE_INVALID_SESSION c).1.is_reconnecting =
      c.is_reconnecting ∧
    (on_disconnected CLOSE_INVALID_SESSION c).1.reconnect_timer =
      c.reconnect_timer ∧
    (on_disconnected CLOSE_INVALID_SESSION c).1.reconnect_attempts =
      c.reconnect_attempts := by
  have h : on_disconnected CLOSE_INVALID_SESSION c =
      ({ c with
          state := ConnStateEnum.disconnected
          user_id := ""
          username := "" },
       [ConnEvent.authentication_failed]) := by
    rw [on_disconnected, if_pos rfl]
  exact ⟨h, by rw [h], by rw [h], by rw [h]⟩

theorem clampQ_mem (v lo hi : ℚ) (h : lo ≤ hi) :
    lo ≤ clampQ v lo hi ∧ clampQ v lo hi ≤ hi :=
  ⟨le_min (le_max_right _ _) h, min_le_right _ _⟩

/-- Counterexample for claim C6: the claim says the validated record
consists of two movement axes, THREE coerced booleans and one angle, so
with both axes and the angle pinned to their defaults it could take at
most 2^3 = 8 distinct values; but the sixteen raw inputs that vary
exactly the four boolean fields jump, pickup, use_weapon and drop_weapon
validate to sixteen pairwise distinct records, all with move_x = move_y
= aim_angle = 0.  The validated record has four coerced booleans, not
three. -/
theorem send_input_three_booleans_counterexample :
    (raw16.map validate_input).Nodup ∧
    (raw16.map validate_input).length = 16 ∧
    ∀ r ∈ raw16, (validate_input r).move_x = 0 ∧
      (validate_input r).move_y = 0 ∧ (validate_input r).aim_angle = 0 := by
  decide

/-- Claim C6 (amended): sendInput is a silent no-op when the match is not
Playing or the connection is not Authenticated (no send, no store, tick
unchanged); otherwise the tick increments by exactly one and the record
sent and stored under the new tick is the validated input — two movement
axes clamped to [-1, 1], FOUR coerced booleans and one angle. -/
theorem send_input_guard_and_validation (auth playing : Bool)
    (raw : RawInput) (s : InputState) :
    (playing = false → send_input auth playing raw s = (s, none)) ∧
    (auth = false → send_input auth playing raw s = (s, none)) ∧
    (playing = true → auth = true →
      send_input auth playing raw s =
        ({ current_tick := s.current_tick + 1
           input_buffer :=
             store_input (s.current_tick + 1) (validate_input raw)
               s.input_buffer
           inputs_sent := s.inputs_sent + 1 },
         some ⟨s.current_tick + 1, validate_input raw⟩)) ∧
    (-1 ≤ (validate_input raw).move_x ∧ (validate_input raw).move_x ≤ 1) ∧
    (-1 ≤ (validate_input raw).move_y ∧ (validate_input raw).move_y ≤ 1) ∧
    (validate_input raw).jump = raw.jump.getD false ∧
    (validate_input raw).pickup = raw.pickup.getD false ∧
    (validate_input raw).use_weapon = raw.use_weapon.getD false ∧
    (validate_input raw).drop_weapon = raw.drop_weapon.getD false ∧
    (validate_input raw).aim_angle = raw.aim_angle.getD 0 := by
  refine ⟨?_, ?_, ?_, ?_, ?_, rfl, rfl, rfl, rfl, rfl⟩
  · intro h
    rw [send_input, if_pos h]
  · intro h
    rw [send_input]
    by_cases hp : playing = false
    · rw [if_pos hp]
    · rw [if_neg hp, if_pos h]
  · intro h1 h2
    rw [send_input, if_neg (by simp [h1]), if_neg (by simp [h2])]
  · exact clampQ_mem _ _ _ (by norm_num)
  · exact clampQ_mem _ _ _ (by norm_num)

/-- Witness for claim C6 (amended): an accepted call on a fresh state
with an out-of-range axis and jump set sends and stores tick 1 with the
clamped, coerced record demoValidated. -/
theorem send_input_guard_and_validation_witness :
    send_input true true demoRaw demoInputState =
      ({ current_tick := 1
         input_buffer := [⟨1, validate_input demoRaw⟩]
         inputs_sent := 1 },
       some ⟨1, validate_input demoRaw⟩) ∧
    validate_input demoRaw = demoValidated ∧
    send_input true false demoRaw demoInputState = (demoInputState, none) := by
  have h := send_input_guard_and_validation true true demoRaw demoInputState
  have hnp := send_input_guard_and_validation true false demoRaw demoInputState
  refine ⟨?_, ?_, hnp.1 rfl⟩
  · have := h.2.2.1 rfl rfl
    rw [this]
    rfl
  · show validate_input demoRaw = demoValidated
    simp [validate_input, demoRaw, demoValidated, clampQ]

/-- Counterexample for claim C7: a match_over message missing every
field (in particular whatever fields the claim considers required) is
not ignored: the handler still mutates MatchState, moving the state enum
from Playing to MatchOver and resetting the recorded final winner. -/
theorem match_over_missing_fields_counterexample :
    (handle_match_over ⟨none, none, none⟩ demoMatch).state ≠
      demoMatch.state ∧
    (handle_match_over ⟨none, none, none⟩ demoMatch).final_winner_peer_id ≠
      demoMatch.final_winner_peer_id := by
  decide

/-- Claim C7 (amended): countdown messages missing their required
seconds field and round-start messages missing their required round
field are dropped with no mutation of MatchState whatsoever; the
round-over and match-over handlers, by contrast, have no required
fields and process every message (as the counterexample shows). -/
theorem match_missing_fields_ignored (m : MatchState)
    (sp ws : Option (List ℤ)) :
    handle_countdown ⟨none⟩ m = m ∧
    handle_round_start ⟨none, sp, ws⟩ m = m := by
  exact ⟨rfl, rfl⟩


theorem find?_map_update_ne (m : List (ℤ × ℤ)) (k v p : ℤ) (h : k ≠ p) :
    (m.map (fun kv => if kv.1 == k then (k, v) else kv)).find?
        (fun kv => kv.1 == p) =
      m.find? (fun kv => kv.1 == p) := by
  induction m with
  | nil => rfl
  | cons kv rest ih =>
      rw [List.map_cons, List.find?_cons, List.find?_cons]
      by_cases hk : kv.1 = k
      · have hk' : (kv.1 == k) = true := by simp [hk]
        rw [if_pos hk']
        have h1 : (((k, v) : ℤ × ℤ).1 == p) = false := by simp [h]
        have h2 : (kv.1 == p) = false := by simp [hk, h]
        simp only [h1, h2]
        exact ih
      · have hk' : ¬ ((kv.1 == k) = true) := by simp [hk]
        rw [if_neg hk']
        by_cases hp : kv.1 = p
        · have hpt : (kv.1 == p) = true := by simp [hp]
          simp only [hpt]
        · have hpf : (kv.1 == p) = false := by simp [hp]
          simp only [hpf]
          exact ih

theorem scores_get_dictInsert_ne (m : List (ℤ × ℤ)) (k v p : ℤ)
    (h : k ≠ p) : scores_get (dictInsert m k v) p = scores_get m p := by
  rw [dictInsert]
  by_cases hany : m.any (fun kv => kv.1 == k)
  · rw [if_pos hany, scores_get, scores_get, find?_map_update_ne m k v p h]
  · rw [if_neg hany, scores_get, scores_get, List.find?_append]
    have hone : ([(k, v)] : List (ℤ × ℤ)).find? (fun kv => kv.1 == p) =
        none := by
      simp [h]
    rw [hone, Option.or_none]

theorem scores_get_parse_scores_absent (arr : List ScoreEntry)
    (init : List (ℤ × ℤ)) (p : ℤ)
    (h : ∀ e ∈ arr, e.peer_id ≠ some p) :
    scores_get (parse_scores init arr) p = scores_get init p := by
  induction arr generalizing init with
  | nil => rfl
  | cons e rest ih =>
      rw [parse_scores, List.foldl_cons]
      have hrest : ∀ x ∈ rest, x.peer_id ≠ some p := fun x hx =>
        h x (List.mem_cons_of_mem _ hx)
      cases hpe : e.peer_id with
      | none =>
          simp only [hpe]
          exact ih _ hrest
      | some q =>
          simp only [hpe]
          have hq : q ≠ p := by
            have hep := h e (List.mem_cons_self _ _)
            rw [hpe] at hep
            simpa using hep
          exact (ih _ hrest).trans (scores_get_dictInsert_ne _ _ _ _ hq)

/-- Claim C8: a round-over message carrying scores merges the payload
into the score map by peer id — peers absent from the payload keep their
entries; a match-over message carrying final scores fully replaces the
map, so peers absent from the payload are gone; reset() returns to
Lobby clearing round, score and spawn data; returnToLobby() returns to
Lobby clearing round and spawn data but preserving the score map. -/
theorem score_merge_replace_reset (m : MatchState) (w : Option ℤ)
    (u : Option String) (arr : List ScoreEntry) (p : ℤ) :
    (handle_round_over ⟨w, some arr⟩ m).scores = parse_scores m.scores arr ∧
    ((∀ e ∈ arr, e.peer_id ≠ some p) →
      scores_get (handle_round_over ⟨w, some arr⟩ m).scores p =
        scores_get m.scores p) ∧
    (handle_match_over ⟨w, u, some arr⟩ m).scores = parse_final_scores arr ∧
    ((∀ e ∈ arr, e.peer_id ≠ some p) →
      scores_get (handle_match_over ⟨w, u, some arr⟩ m).scores p = none) ∧
    match_reset m =
      { state := MState.lobby
        current_round := 0
        scores := []
        spawn_positions := []
        weapon_spawns := []
        final_winner_peer_id := -1
        final_winner_username := ""
        final_scores := [] } ∧
    (return_to_lobby m).state = MState.lobby ∧
    (return_to_lobby m).scores = m.scores ∧
    (return_to_lobby m).current_round = 0 ∧
    (return_to_lobby m).spawn_positions = [] ∧
    (return_to_lobby m).weapon_spawns = [] ∧
    (return_to_lobby m).final_winner_peer_id = m.final_winner_peer_id := by
  refine ⟨rfl, ?_, rfl, ?_, rfl, rfl, rfl, rfl, rfl, rfl, rfl⟩
  · intro h
    exact scores_get_parse_scores_absent arr m.scores p h
  · intro h
    exact scores_get_parse_scores_absent arr [] p h

/-- Witness for claim C8: merging the payload for peer 2 into scores
that hold peer 1 keeps peer 1's entry; the final-scores replacement
drops peer 1 entirely. -/
theorem score_merge_replace_reset_witness :
    (handle_round_over ⟨none, some demoScoresArr⟩ demoMatch).scores =
      [(1, 1), (2, 3)] ∧
    scores_get (handle_round_over ⟨none, some demoScoresArr⟩
        demoMatch).scores 1 = scores_get demoMatch.scores 1 ∧
    (handle_match_over ⟨none, none, some demoScoresArr⟩ demoMatch).scores =
      [(2, 3)] ∧
    scores_get (handle_match_over ⟨none, none, some demoScoresArr⟩
        demoMatch).scores 1 = none := by
  have h := score_merge_replace_reset demoMatch none none demoScoresArr 1
  exact ⟨by decide, h.2.1 (by decide), by decide, h.2.2.2.1 (by decide)⟩

/-- Counterexample for claim C9: with samples 1 ms and 2 ms buffered,
the accessor returns 1, not the arithmetic mean 3/2 — GDScript int/int
division truncates. -/
theorem average_latency_counterexample :
    get_average_latency [1, 2] = 1 ∧
    ¬ ((get_average_latency [1, 2] : ℚ) =
        ((([1, 2] : List ℤ).sum : ℚ) / (([1, 2] : List ℤ).length : ℚ))) := by
  have hv : get_average_latency [1, 2] = 1 := by decide
  have hs : (([1, 2] : List ℤ).sum) = 3 := by decide
  have hl : (([1, 2] : List ℤ).length) = 2 := by decide
  refine ⟨hv, fun hcontra => ?_⟩
  rw [hv, hs, hl] at hcontra
  norm_num at hcontra

/-- Claim C9 (amended): on a non-empty ring of (nonnegative round-trip)
samples the accessor returns the integer part of the arithmetic mean —
the unique integer q with q * count ≤ sum < (q + 1) * count, i.e. the
mean rounded down — and 0 on an empty ring. -/
theorem average_latency_floor (buf : List ℤ) :
    (buf = [] → get_average_latency buf = 0) ∧
    (buf ≠ [] → (∀ x ∈ buf, 0 ≤ x) →
      get_average_latency buf * (buf.length : ℤ) ≤ buf.sum ∧
      buf.sum < (get_average_latency buf + 1) * (buf.length : ℤ)) := by
  constructor
  · intro h
    subst h
    rfl
  · intro hne hnn
    have hlenpos : 0 < buf.length := List.length_pos.mpr hne
    have hlen : 0 < (buf.length : ℤ) := by exact_mod_cast hlenpos
    have hsum : 0 ≤ buf.sum := List.sum_nonneg hnn
    rw [get_average_latency, if_neg (by simp [hne])]
    rw [Int.tdiv_eq_ediv hsum (by omega)]
    have h1 := Int.ediv_add_emod buf.sum (buf.length : ℤ)
    have h2 := Int.emod_nonneg buf.sum (by omega : (buf.length : ℤ) ≠ 0)
    have h3 := Int.emod_lt_of_pos buf.sum hlen
    constructor
    · nlinarith [h1, h2]
    · nlinarith [h1, h3]

/-- Witness for claim C9 (amended): for the ring [1, 2] the returned
average 1 satisfies 1 * 2 ≤ 3 < 2 * 2. -/
theorem average_latency_floor_witness :
    get_average_latency [1, 2] * (([1, 2] : List ℤ).length : ℤ) ≤
      ([1, 2] : List ℤ).sum ∧
    ([1, 2] : List ℤ).sum <
      (get_average_latency [1, 2] + 1) * (([1, 2] : List ℤ).length : ℤ) :=
  (average_latency_floor [1, 2]).2 (by decide) (by decide)

/-- Claim C10: leaveLobby while authenticated and in a lobby clears the
local lobby state at call time — empty code, empty roster, host reset
(the self peer id field is untouched) — fires lobby_left and sends the
leave request in the same call, with no waiting on any acknowledgment;
when not authenticated or not in a lobby it changes nothing and sends
nothing. -/
theorem leave_lobby_immediate_clear (auth : Bool) (l : LobbyState) :
    (auth = false → leave_lobby auth l = (l, [], none)) ∧
    (l.lobby_code.isEmpty = true → leave_lobby auth l = (l, [], none)) ∧
    (auth = true → l.lobby_code.isEmpty = false →
      leave_lobby auth l =
        ({ l with lobby_code := "", players := [], host_peer_id := -1 },
         [LobbyEvent.lobby_left], some LobbyOut.leave_lobby_request)) := by
  refine ⟨?_, ?_, ?_⟩
  · intro h
    rw [leave_lobby, if_pos h]
  · intro h
    rw [leave_lobby]
    by_cases ha : auth = false
    · rw [if_pos ha]
    · rw [if_neg ha, if_pos h]
  · intro h1 h2
    rw [leave_lobby, if_neg (by simp [h1]), if_neg (by simp [h2])]
    rfl

/-- Witness for claim C10: leaving the demo lobby while authenticated
clears code, roster and host (keeping the self peer id) and fires
lobby_left alongside the outbound leave request; the same call while
not authenticated is a complete no-op. -/
theorem leave_lobby_immediate_clear_witness :
    leave_lobby true demoLobby =
      ({ lobby_code := ""
         players := []
         my_peer_id := 1
         host_peer_id := -1 },
       [LobbyEvent.lobby_left], some LobbyOut.leave_lobby_request) ∧
    leave_lobby false demoLobby = (demoLobby, [], none) := by
  have h := leave_lobby_immediate_clear true demoLobby
  have hno := leave_lobby_immediate_clear false demoLobby
  exact ⟨h.2.2 rfl (by decide), hno.1 rfl⟩

end Shard
